import Mathlib

/-!
Shallow embedding of the worker-side test reporter in
src/src/twisted/trial/_dist/workerreporter.py.

Python exceptions are modelled explicitly: a fallible computation returns
a value of type PyResult, and a reporter method returns the updated state
together with the exception, if any, that it raised to its caller.
External collaborators not present under src (the base TestResult
bookkeeping, twisted.python.failure.Failure, twisted.python.reflect.qual,
maybeDeferred and the AMP callRemote channel) are modelled from the spec,
as marked on each definition.
-/

/-- An abstract Python exception value (only its message matters here). -/
structure PyErr where
  msg : String
deriving Repr, DecidableEq

/-- Result of a synchronous Python computation: a value, or a raised exception. -/
inductive PyResult (α : Type) where
  | ok (a : α)
  | raised (e : PyErr)
deriving Repr, DecidableEq

/-- An abstract Python object as seen by the reporter: its string rendering
(used for error messages and skip reasons, and fallible because Python
str() may raise) and its module-qualified name (the result of qual,
likewise fallible). -/
structure PyObj where
  strRes : PyResult String
  qualRes : PyResult String
deriving Repr, DecidableEq

/-- One captured stack frame: the code object's name, the code object's
filename, and the line number, as stored on a Failure's frame list. -/
structure Frame where
  functionName : String
  fileName : String
  lineNumber : Nat
deriving Repr, DecidableEq

/-- A traceback, reduced to the frames the reporter reads from it. -/
abbrev Traceback := List Frame

/-- Modelled from the spec: twisted.python.failure.Failure (not under src),
an already-wrapped failure exposing message (from the wrapped exception
value), type, and frames. -/
structure Failure where
  value : PyObj
  typeObj : PyObj
  frames : List Frame
deriving Repr, DecidableEq

/-- Modelled from the spec: the Failure constructor, whose positional
parameters are (exc_value, exc_type, exc_tb); frames are captured from the
traceback. -/
def Failure.fromExc (excValue excType : PyObj) (excTb : Traceback) : Failure :=
  { value := excValue, typeObj := excType, frames := excTb }

/-- Modelled from the spec: Failure.getErrorMessage, the human-readable
message derived from the wrapped exception value. -/
def Failure.getErrorMessage (f : Failure) : PyResult String :=
  f.value.strRes

/-- Modelled from the spec: twisted.python.reflect.qual, the fully
module-qualified name of an object. -/
def qual (o : PyObj) : PyResult String :=
  o.qualRes

/-- The ExcInfo type alias of workerreporter.py, line 26: a tuple whose
declared components are (exception instance, exception type, traceback). -/
abbrev ExcInfo := PyObj × PyObj × Traceback

/-- The named arguments of the six AMP manager commands, one constructor
per command, as issued by the six outcome methods. -/
inductive Payload where
  | success (testName : String)
  | error (testName errorMsg errorClass : String) (frames : List String)
  | failure (testName failMsg failClass : String) (frames : List String)
  | skip (testName reason : String)
  | expectedFailure (testName errorMsg todo : String)
  | unexpectedSuccess (testName todo : String)
deriving Repr, DecidableEq

/-- A pending-relay handle (a Deferred): either a call that was issued on
the channel, or the captured form of a synchronous exception raised while
building or issuing the call. -/
inductive Handle where
  | issued (p : Payload)
  | failedSync (e : PyErr)
deriving Repr, DecidableEq

/-- Modelled from the spec: the AMP channel. callRemote may raise
synchronously; sendErr gives the exception it raises on a given payload,
or none when it returns a Deferred normally. -/
structure AmpProtocol where
  sendErr : Payload → Option PyErr

/-- Modelled from the spec: callRemote issues the command and returns its
Deferred, or raises synchronously. -/
def AmpProtocol.callRemote (amp : AmpProtocol) (p : Payload) : PyResult Handle :=
  match amp.sendErr p with
  | some e => PyResult.raised e
  | none => PyResult.ok (Handle.issued p)

/-- A channel on which every callRemote succeeds. -/
def reliableAmp : AmpProtocol :=
  { sendErr := fun _ => none }

/-- A channel on which every callRemote raises e synchronously. -/
def failingAmp (e : PyErr) : AmpProtocol :=
  { sendErr := fun _ => some e }

/-- Modelled from the spec: twisted.internet.defer.maybeDeferred calls f
and returns its Deferred, wrapping a synchronous raise into an
already-failed Deferred instead of propagating it. -/
def maybeDeferred (f : Unit → PyResult Handle) : Handle :=
  match f () with
  | PyResult.ok d => d
  | PyResult.raised e => Handle.failedSync e

/-- Modelled from the spec: the base synchronous bookkeeping of
twisted.trial.reporter.TestResult (not under src), reduced to one counter
per outcome kind. -/
structure BaseState where
  successes : Nat
  errors : Nat
  failures : Nat
  skips : Nat
  expectedFailures : Nat
  unexpectedSuccesses : Nat
deriving Repr, DecidableEq

/-- Modelled from the spec: base addSuccess bookkeeping. -/
def BaseState.addSuccess (b : BaseState) : BaseState :=
  { b with successes := b.successes + 1 }

/-- Modelled from the spec: base addError bookkeeping. -/
def BaseState.addError (b : BaseState) : BaseState :=
  { b with errors := b.errors + 1 }

/-- Modelled from the spec: base addFailure bookkeeping. -/
def BaseState.addFailure (b : BaseState) : BaseState :=
  { b with failures := b.failures + 1 }

/-- Modelled from the spec: base addSkip bookkeeping. -/
def BaseState.addSkip (b : BaseState) : BaseState :=
  { b with skips := b.skips + 1 }

/-- Modelled from the spec: base addExpectedFailure bookkeeping. -/
def BaseState.addExpectedFailure (b : BaseState) : BaseState :=
  { b with expectedFailures := b.expectedFailures + 1 }

/-- Modelled from the spec: base addUnexpectedSuccess bookkeeping. -/
def BaseState.addUnexpectedSuccess (b : BaseState) : BaseState :=
  { b with unexpectedSuccesses := b.unexpectedSuccesses + 1 }

/-- The mutable state of one WorkerReporter together with every
ReportingResults object ever bound to it. Sessions are addressed by the
index at which they were allocated; each holds its grown results list.
reporting is the reporter's nullable active-session reference. -/
structure World where
  sessions : List (List Handle)
  reporting : Option Nat
  base : BaseState
deriving Repr, DecidableEq

/-- The results list of session sid (empty when sid is unallocated). -/
def sessionAt (w : World) (sid : Nat) : List Handle :=
  w.sessions.getD sid []

/-- ReportingResults.enter: begins the reportable context and returns the
live results sequence of the session; the state is untouched. -/
def ReportingResults.enter (w : World) (sid : Nat) : World × List Handle :=
  (w, sessionAt w sid)

/-- ReportingResults.exitScope (the context-manager exit of session sid,
given the exception active in the scope if any): it sets the owning
reporter's reporting reference to None and returns False, so the
exception, when present, is reported as not handled. -/
def ReportingResults.exitScope (w : World) (sid : Nat) (excInfo : Option PyErr) :
    World × Bool :=
  ({ w with reporting := none }, false)

/-- ReportingResults.record: appends one Deferred to session sid's
results list. -/
def ReportingResults.record (w : World) (sid : Nat) (result : Handle) : World :=
  { w with sessions := w.sessions.set sid (sessionAt w sid ++ [result]) }

/-- A test, reduced to what the reporter reads from it: test.id(). -/
structure Test where
  id : String
deriving Repr, DecidableEq

/-- A Todo object, reduced to its reason text. -/
structure Todo where
  reason : String
deriving Repr, DecidableEq

/-- Result of one reporter method call: the state after it and the
exception it raised to its caller, if any. -/
structure MethodResult where
  world : World
  exn : Option PyErr
deriving Repr, DecidableEq

namespace WorkerReporter

/-- The default message for expected failures and unexpected successes
(workerreporter.py line 98). -/
def DEFAULT_TODO : String := "Test expected to fail"

/-- The ValueError raised by a command called outside of the reporting
context manager (workerreporter.py lines 153-155). -/
def usageError : PyErr :=
  { msg := "Cannot call command outside of reporting context manager." }

/-- WorkerReporter.gatherReportingResults: allocates a fresh
ReportingResults bound to this reporter, installs it as the active
session and returns it (here: its index). -/
def gatherReportingResults (w : World) : World × Nat :=
  ({ w with sessions := w.sessions ++ [[]], reporting := some w.sessions.length },
    w.sessions.length)

/-- WorkerReporter.getFailure: converts an exc-info style tuple to a
Failure if necessary, as Failure(error[1], error[0], error[2]). -/
def getFailure : Failure ⊕ ExcInfo → Failure
  | Sum.inl f => f
  | Sum.inr e => Failure.fromExc e.2.1 e.1 e.2.2

/-- WorkerReporter.getFrames: extracts frames from a Failure into a flat
string list, the code object's name, the code object's filename, and the
line number rendered as a string, per frame. -/
def getFrames (failure : Failure) : List String :=
  failure.frames.flatMap fun frame =>
    [frame.functionName, frame.fileName, toString frame.lineNumber]

/-- WorkerReporter.call: records maybeDeferred f in the active reporting
context, or raises ValueError when none is active. -/
def call (w : World) (f : Unit → PyResult Handle) : MethodResult :=
  match w.reporting with
  | some sid => { world := ReportingResults.record w sid (maybeDeferred f), exn := none }
  | none => { world := w, exn := some usageError }

/-- WorkerReporter.addSuccess. -/
def addSuccess (amp : AmpProtocol) (w : World) (test : Test) : MethodResult :=
  let w1 := { w with base := w.base.addSuccess }
  let testName := test.id
  call w1 fun _ => amp.callRemote (Payload.success testName)

/-- WorkerReporter.addErrorFallible: builds the AddError payload and
issues the call; every step happens inside this function, so a raise
from any of them is a raise of this function. -/
def addErrorFallible (amp : AmpProtocol) (testName : String)
    (errorObj : Failure ⊕ ExcInfo) : PyResult Handle :=
  let failure := getFailure errorObj
  match failure.getErrorMessage with
  | PyResult.raised e => PyResult.raised e
  | PyResult.ok errorStr =>
    match qual failure.typeObj with
    | PyResult.raised e => PyResult.raised e
    | PyResult.ok errorClass =>
      amp.callRemote (Payload.error testName errorStr errorClass (getFrames failure))

/-- WorkerReporter.addError: base bookkeeping first, then the whole
payload construction is deferred into the lambda given to call. -/
def addError (amp : AmpProtocol) (w : World) (test : Test)
    (error : Failure ⊕ ExcInfo) : MethodResult :=
  let w1 := { w with base := w.base.addError }
  let testName := test.id
  call w1 fun _ => addErrorFallible amp testName error

/-- WorkerReporter.addFailure: base bookkeeping first, then the failure
is normalized inline (lines 208-211), before call; only the callRemote
itself is inside the lambda. -/
def addFailure (amp : AmpProtocol) (w : World) (test : Test)
    (fail : Failure ⊕ ExcInfo) : MethodResult :=
  let w1 := { w with base := w.base.addFailure }
  let testName := test.id
  let failure := getFailure fail
  match failure.getErrorMessage with
  | PyResult.raised e => { world := w1, exn := some e }
  | PyResult.ok failMsg =>
    match qual failure.typeObj with
    | PyResult.raised e => { world := w1, exn := some e }
    | PyResult.ok failClass =>
      let frames := getFrames failure
      call w1 fun _ => amp.callRemote (Payload.failure testName failMsg failClass frames)

/-- WorkerReporter.addSkip: base bookkeeping first, then the reason is
coerced to a string inline, before call. -/
def addSkip (amp : AmpProtocol) (w : World) (test : Test) (reason : PyObj) :
    MethodResult :=
  let w1 := { w with base := w.base.addSkip }
  match reason.strRes with
  | PyResult.raised e => { world := w1, exn := some e }
  | PyResult.ok reasonStr =>
    let testName := test.id
    call w1 fun _ => amp.callRemote (Payload.skip testName reasonStr)

/-- WorkerReporter.getTodoReason: the reason of the Todo, or the default
when none is provided. -/
def getTodoReason : Option Todo → String
  | none => DEFAULT_TODO
  | some todo => todo.reason

/-- WorkerReporter.addExpectedFailure: base bookkeeping first, then the
error message is extracted inline (line 251), before call; the todo
reason is computed inside the lambda. -/
def addExpectedFailure (amp : AmpProtocol) (w : World) (test : Test)
    (error : Failure) (todo : Option Todo) : MethodResult :=
  let w1 := { w with base := w.base.addExpectedFailure }
  match error.getErrorMessage with
  | PyResult.raised e => { world := w1, exn := some e }
  | PyResult.ok errorMessage =>
    let testName := test.id
    call w1 fun _ =>
      amp.callRemote (Payload.expectedFailure testName errorMessage (getTodoReason todo))

/-- WorkerReporter.addUnexpectedSuccess. -/
def addUnexpectedSuccess (amp : AmpProtocol) (w : World) (test : Test)
    (todo : Option Todo) : MethodResult :=
  let w1 := { w with base := w.base.addUnexpectedSuccess }
  let testName := test.id
  call w1 fun _ =>
    amp.callRemote (Payload.unexpectedSuccess testName (getTodoReason todo))

end WorkerReporter

/-! Concrete objects used by witnesses and counterexamples. -/

/-- A base bookkeeping state with all counters at zero. -/
def base0 : BaseState := ⟨0, 0, 0, 0, 0, 0⟩

/-- A world with one allocated, empty, active session. -/
def w0 : World := ⟨[[]], some 0, base0⟩

/-- A sample test. -/
def t0 : Test := ⟨"pkg.Tests.test_one"⟩

/-- A sample two-frame failure. -/
def fl0 : Failure :=
  ⟨⟨PyResult.ok "boom", PyResult.ok "mod.inst"⟩,
   ⟨PyResult.ok "typestr", PyResult.ok "mod.ValueError"⟩,
   [⟨"f", "file.py", 7⟩, ⟨"g", "other.py", 12⟩]⟩

/-! Helper lemmas about frame flattening. -/

/-- The flattening of a frame list, as performed by getFrames. -/
def flattenFrames (l : List Frame) : List String :=
  l.flatMap fun frame => [frame.functionName, frame.fileName, toString frame.lineNumber]

theorem flattenFrames_length (l : List Frame) : (flattenFrames l).length = 3 * l.length := by
  induction l with
  | nil => simp [flattenFrames]
  | cons x t ih => simp [flattenFrames, List.flatMap_cons] at ih ⊢; omega

theorem flattenFrames_getD (l : List Frame) :
    ∀ i, i < l.length →
      (flattenFrames l).getD (3 * i) "" = (l.getD i ⟨"", "", 0⟩).functionName ∧
      (flattenFrames l).getD (3 * i + 1) "" = (l.getD i ⟨"", "", 0⟩).fileName ∧
      (flattenFrames l).getD (3 * i + 2) "" = toString (l.getD i ⟨"", "", 0⟩).lineNumber := by
  induction l with
  | nil => intro i hi; simp at hi
  | cons x t ih =>
    intro i hi
    match i with
    | 0 => simp [flattenFrames, List.flatMap_cons]
    | i + 1 =>
      have ht : i < t.length := by simpa using Nat.lt_of_succ_lt_succ hi
      obtain ⟨ha, hb, hc⟩ := ih i ht
      refine ⟨?_, ?_, ?_⟩
      · have e : 3 * (i + 1) = 3 * i + 1 + 1 + 1 := by ring
        rw [e]
        simpa [flattenFrames, List.flatMap_cons, List.getD_cons_succ] using ha
      · have e : 3 * (i + 1) + 1 = 3 * i + 1 + 1 + 1 + 1 := by ring
        rw [e]
        simpa [flattenFrames, List.flatMap_cons, List.getD_cons_succ] using hb
      · have e : 3 * (i + 1) + 2 = 3 * i + 2 + 1 + 1 + 1 := by ring
        rw [e]
        simpa [flattenFrames, List.flatMap_cons, List.getD_cons_succ] using hc

theorem getFrames_eq_flattenFrames (f : Failure) :
    WorkerReporter.getFrames f = flattenFrames f.frames := rfl

/-- C5: for every failure whose frame list has length n, getFrames
produces a flat list of exactly 3 * n strings, where for each index i the
entries at positions 3i, 3i+1 and 3i+2 are the i-th frame's function
name, file name, and line number rendered as a string, in the frames'
original order. -/
theorem getFrames_flattens_in_order (f : Failure) :
    (WorkerReporter.getFrames f).length = 3 * f.frames.length ∧
    ∀ i, i < f.frames.length →
      (WorkerReporter.getFrames f).getD (3 * i) "" = (f.frames.getD i ⟨"", "", 0⟩).functionName ∧
      (WorkerReporter.getFrames f).getD (3 * i + 1) "" = (f.frames.getD i ⟨"", "", 0⟩).fileName ∧
      (WorkerReporter.getFrames f).getD (3 * i + 2) ""
        = toString (f.frames.getD i ⟨"", "", 0⟩).lineNumber := by
  rw [getFrames_eq_flattenFrames]
  exact ⟨flattenFrames_length f.frames, flattenFrames_getD f.frames⟩

/-- Witness for C5 at the concrete two-frame failure fl0: the second
frame's entries sit at positions 3, 4 and 5 and the list has length 6. -/
theorem getFrames_flattens_in_order_witness :
    (WorkerReporter.getFrames fl0).length = 3 * fl0.frames.length ∧
    (WorkerReporter.getFrames fl0).getD 4 "" = "other.py" := by
  refine ⟨(getFrames_flattens_in_order fl0).1, ?_⟩
  have h := ((getFrames_flattens_in_order fl0).2 1 (by decide)).2.1
  simpa using h

/-- C6: exiting a reporting-session scope, with or without an active
exception, always clears the owning reporter's active-session reference
and returns False, so an exception raised in the scope is reported as not
handled and is never suppressed. -/
theorem exitScope_clears_reference_and_suppresses_nothing
    (w : World) (sid : Nat) (excInfo : Option PyErr) :
    (ReportingResults.exitScope w sid excInfo).1.reporting = none ∧
    (ReportingResults.exitScope w sid excInfo).2 = false :=
  ⟨rfl, rfl⟩

/-! Helper lemmas about record. -/

theorem record_sessions_length (w : World) (sid : Nat) (h : Handle) :
    (ReportingResults.record w sid h).sessions.length = w.sessions.length := by
  simp [ReportingResults.record]

theorem record_sessionAt_self (w : World) (sid : Nat) (hsid : sid < w.sessions.length)
    (h : Handle) :
    sessionAt (ReportingResults.record w sid h) sid = sessionAt w sid ++ [h] := by
  simp [ReportingResults.record, sessionAt, List.getD, List.getElem?_set_self, hsid]

theorem record_sessionAt_other (w : World) (sid j : Nat) (hj : sid ≠ j) (h : Handle) :
    sessionAt (ReportingResults.record w sid h) j = sessionAt w j := by
  simp [ReportingResults.record, sessionAt, List.getD, List.getElem?_set_ne hj]

theorem foldl_record_sessionAt (hs : List Handle) :
    ∀ w : World, ∀ sid : Nat, sid < w.sessions.length →
      sessionAt (hs.foldl (fun acc h => ReportingResults.record acc sid h) w) sid
        = sessionAt w sid ++ hs := by
  induction hs with
  | nil => intro w sid hsid; simp
  | cons h t ih =>
    intro w sid hsid
    have hsid1 : sid < (ReportingResults.record w sid h).sessions.length := by
      simpa [record_sessions_length] using hsid
    simp only [List.foldl_cons]
    rw [ih _ _ hsid1, record_sessionAt_self w sid hsid h]
    simp

/-- C7: the pending-relay sequence of a session is append-only in
insertion order: scope-enter returns the session's current sequence and
changes nothing; record appends exactly one handle to that session and
touches no other session and not the active-session reference; after any
sequence of record calls the session holds its initial content followed
by all recorded handles in recording order; and scope-exit removes or
reorders nothing from any session's sequence. -/
theorem session_sequence_append_only (w : World) (sid : Nat)
    (hsid : sid < w.sessions.length) (hs : List Handle) (excInfo : Option PyErr) :
    (ReportingResults.enter w sid).1 = w ∧
    (ReportingResults.enter w sid).2 = sessionAt w sid ∧
    (∀ h, sessionAt (ReportingResults.record w sid h) sid = sessionAt w sid ++ [h]) ∧
    (∀ h j, j ≠ sid → sessionAt (ReportingResults.record w sid h) j = sessionAt w j) ∧
    (∀ h, (ReportingResults.record w sid h).reporting = w.reporting) ∧
    sessionAt (hs.foldl (fun acc h => ReportingResults.record acc sid h) w) sid
      = sessionAt w sid ++ hs ∧
    (ReportingResults.exitScope w sid excInfo).1.sessions = w.sessions := by
  refine ⟨rfl, rfl, ?_, ?_, ?_, ?_, rfl⟩
  · intro h; exact record_sessionAt_self w sid hsid h
  · intro h j hj; exact record_sessionAt_other w sid j (fun e => hj e.symm) h
  · intro h; rfl
  · exact foldl_record_sessionAt hs w sid hsid

/-- Witness for C7 at the concrete world w0, session 0, recording two
handles and then exiting: the session reads back both handles in order. -/
theorem session_sequence_append_only_witness :
    sessionAt (([Handle.issued (Payload.success "a"), Handle.failedSync ⟨"x"⟩].foldl
        (fun acc h => ReportingResults.record acc 0 h) w0)) 0
      = sessionAt w0 0 ++ [Handle.issued (Payload.success "a"), Handle.failedSync ⟨"x"⟩] :=
  (session_sequence_append_only w0 0 (by decide)
    [Handle.issued (Payload.success "a"), Handle.failedSync ⟨"x"⟩] none).2.2.2.2.2.1

/-! Helper lemma about call in an active reporting context. -/

theorem call_spec (w : World) (sid : Nat) (h : w.reporting = some sid)
    (f : Unit → PyResult Handle) :
    (WorkerReporter.call w f).exn = none ∧
    (WorkerReporter.call w f).world.reporting = w.reporting ∧
    (WorkerReporter.call w f).world.base = w.base ∧
    (WorkerReporter.call w f).world.sessions
      = w.sessions.set sid (sessionAt w sid ++ [maybeDeferred f]) := by
  simp [WorkerReporter.call, h, ReportingResults.record]

/-- C9: gatherReportingResults installs a freshly created, empty session
as the reporter's active session and returns it; every previously
allocated session keeps its recorded handles untouched (no draining, even
when a session was already active), and a subsequent outcome call is
tracked by the newly returned session. -/
theorem gatherReportingResults_opens_fresh_session (w : World) (t : Test) :
    (WorkerReporter.gatherReportingResults w).1.reporting
      = some (WorkerReporter.gatherReportingResults w).2 ∧
    sessionAt (WorkerReporter.gatherReportingResults w).1
      (WorkerReporter.gatherReportingResults w).2 = [] ∧
    (WorkerReporter.gatherReportingResults w).1.sessions.length
      = w.sessions.length + 1 ∧
    (WorkerReporter.gatherReportingResults w).1.base = w.base ∧
    (∀ j, j < w.sessions.length →
      sessionAt (WorkerReporter.gatherReportingResults w).1 j = sessionAt w j) ∧
    sessionAt
      (WorkerReporter.addSuccess reliableAmp (WorkerReporter.gatherReportingResults w).1 t).world
      (WorkerReporter.gatherReportingResults w).2
      = [Handle.issued (Payload.success t.id)] := by
  refine ⟨rfl, ?_, by simp [WorkerReporter.gatherReportingResults], rfl, ?_, ?_⟩
  · simp [WorkerReporter.gatherReportingResults, sessionAt, List.getD]
  · intro j hj
    simp [WorkerReporter.gatherReportingResults, sessionAt, List.getD,
      List.getElem?_append_left, hj]
  · have hlen : w.sessions.length < (w.sessions ++ [[]]).length := by simp
    simp [WorkerReporter.gatherReportingResults, WorkerReporter.addSuccess,
      WorkerReporter.call, ReportingResults.record, maybeDeferred,
      AmpProtocol.callRemote, reliableAmp, sessionAt, List.getD,
      List.getElem?_set_self, hlen]

/-- Witness for C9 at the concrete world w0 (which already has an active
session): the new session is session 1, it is empty, and session 0 keeps
its content. -/
theorem gatherReportingResults_opens_fresh_session_witness :
    sessionAt (WorkerReporter.gatherReportingResults w0).1 0 = sessionAt w0 0 :=
  (gatherReportingResults_opens_fresh_session w0 t0).2.2.2.2.1 0 (by decide)

/-- C10: opening a second session while a first is active and then
exiting the first (now stale) session's scope clears the reporter's
active-session reference unconditionally, detaching the second session
and leaving the reporter in the no-session state, where every one of the
six outcome methods raises the usage error. -/
theorem stale_scope_exit_detaches_current_session
    (w : World) (excInfo : Option PyErr) (amp : AmpProtocol) (test : Test)
    (err fl : Failure ⊕ ExcInfo) (reason : PyObj) (efErr : Failure)
    (todo : Option Todo) (m c rs em : String)
    (hm : (WorkerReporter.getFailure fl).getErrorMessage = PyResult.ok m)
    (hc : qual (WorkerReporter.getFailure fl).typeObj = PyResult.ok c)
    (hr : reason.strRes = PyResult.ok rs)
    (hem : efErr.getErrorMessage = PyResult.ok em) :
    let r1 := WorkerReporter.gatherReportingResults w
    let r2 := WorkerReporter.gatherReportingResults r1.1
    let r3 := ReportingResults.exitScope r2.1 r1.2 excInfo
    r2.1.reporting = some r2.2 ∧
    r1.2 ≠ r2.2 ∧
    r3.1.reporting = none ∧
    (WorkerReporter.addSuccess amp r3.1 test).exn = some WorkerReporter.usageError ∧
    (WorkerReporter.addError amp r3.1 test err).exn = some WorkerReporter.usageError ∧
    (WorkerReporter.addFailure amp r3.1 test fl).exn = some WorkerReporter.usageError ∧
    (WorkerReporter.addSkip amp r3.1 test reason).exn = some WorkerReporter.usageError ∧
    (WorkerReporter.addExpectedFailure amp r3.1 test efErr todo).exn
      = some WorkerReporter.usageError ∧
    (WorkerReporter.addUnexpectedSuccess amp r3.1 test todo).exn
      = some WorkerReporter.usageError := by
  refine ⟨rfl, by simp [WorkerReporter.gatherReportingResults], rfl, ?_, ?_, ?_, ?_, ?_, ?_⟩
  · simp [WorkerReporter.addSuccess, WorkerReporter.call, ReportingResults.exitScope]
  · simp [WorkerReporter.addError, WorkerReporter.call, ReportingResults.exitScope]
  · simp [WorkerReporter.addFailure, hm, hc, WorkerReporter.call, ReportingResults.exitScope]
  · simp [WorkerReporter.addSkip, hr, WorkerReporter.call, ReportingResults.exitScope]
  · simp [WorkerReporter.addExpectedFailure, hem, WorkerReporter.call,
      ReportingResults.exitScope]
  · simp [WorkerReporter.addUnexpectedSuccess, WorkerReporter.call,
      ReportingResults.exitScope]

/-- Witness for C10 at concrete inputs: after opening two sessions over
w0 and exiting the first one's scope, addSuccess raises the usage error. -/
theorem stale_scope_exit_detaches_current_session_witness :
    (WorkerReporter.addSuccess reliableAmp
      (ReportingResults.exitScope
        (WorkerReporter.gatherReportingResults
          (WorkerReporter.gatherReportingResults w0).1).1
        (WorkerReporter.gatherReportingResults w0).2 none).1 t0).exn
      = some WorkerReporter.usageError :=
  (stale_scope_exit_detaches_current_session w0 none reliableAmp t0
    (Sum.inl fl0) (Sum.inl fl0) ⟨PyResult.ok "slow", PyResult.ok "q"⟩ fl0 none
    "boom" "mod.ValueError" "slow" "boom"
    (by decide) (by decide) (by decide) (by decide)).2.2.2.1

/-- C1: each of the six outcome methods, invoked while no reporting
session is active (and, for the methods whose payload preparation reads
well-formed inputs inline, with those reads succeeding as the spec
presumes of non-malformed input), raises the usage error synchronously
and records no relay handle anywhere. -/
theorem outcome_methods_require_active_session
    (amp : AmpProtocol) (w : World) (h : w.reporting = none) (test : Test)
    (err fl : Failure ⊕ ExcInfo) (reason : PyObj) (efErr : Failure)
    (todo : Option Todo) (m c rs em : String)
    (hm : (WorkerReporter.getFailure fl).getErrorMessage = PyResult.ok m)
    (hc : qual (WorkerReporter.getFailure fl).typeObj = PyResult.ok c)
    (hr : reason.strRes = PyResult.ok rs)
    (hem : efErr.getErrorMessage = PyResult.ok em) :
    ((WorkerReporter.addSuccess amp w test).exn = some WorkerReporter.usageError ∧
      (WorkerReporter.addSuccess amp w test).world.sessions = w.sessions) ∧
    ((WorkerReporter.addError amp w test err).exn = some WorkerReporter.usageError ∧
      (WorkerReporter.addError amp w test err).world.sessions = w.sessions) ∧
    ((WorkerReporter.addFailure amp w test fl).exn = some WorkerReporter.usageError ∧
      (WorkerReporter.addFailure amp w test fl).world.sessions = w.sessions) ∧
    ((WorkerReporter.addSkip amp w test reason).exn = some WorkerReporter.usageError ∧
      (WorkerReporter.addSkip amp w test reason).world.sessions = w.sessions) ∧
    ((WorkerReporter.addExpectedFailure amp w test efErr todo).exn
        = some WorkerReporter.usageError ∧
      (WorkerReporter.addExpectedFailure amp w test efErr todo).world.sessions
        = w.sessions) ∧
    ((WorkerReporter.addUnexpectedSuccess amp w test todo).exn
        = some WorkerReporter.usageError ∧
      (WorkerReporter.addUnexpectedSuccess amp w test todo).world.sessions
        = w.sessions) := by
  refine ⟨⟨?_, ?_⟩, ⟨?_, ?_⟩, ⟨?_, ?_⟩, ⟨?_, ?_⟩, ⟨?_, ?_⟩, ⟨?_, ?_⟩⟩ <;>
    simp [WorkerReporter.addSuccess, WorkerReporter.addError, WorkerReporter.addFailure,
      WorkerReporter.addSkip, WorkerReporter.addExpectedFailure,
      WorkerReporter.addUnexpectedSuccess, WorkerReporter.call, hm, hc, hr, hem, h]

/-- Witness for C1: over a world whose session reference is None, the
concrete call addSuccess raises the usage error and leaves the session
store untouched. -/
theorem outcome_methods_require_active_session_witness :
    (WorkerReporter.addSuccess reliableAmp ⟨[[]], none, base0⟩ t0).exn
      = some WorkerReporter.usageError :=
  ((outcome_methods_require_active_session reliableAmp ⟨[[]], none, base0⟩ rfl t0
    (Sum.inl fl0) (Sum.inl fl0) ⟨PyResult.ok "slow", PyResult.ok "q"⟩ fl0 none
    "boom" "mod.ValueError" "slow" "boom"
    (by decide) (by decide) (by decide) (by decide)).1).1

/-! Per-method equations in an active reporting context, and base
bookkeeping facts independent of session state. -/

theorem addSuccess_active (amp : AmpProtocol) (w : World) (sid : Nat)
    (h : w.reporting = some sid) (test : Test) :
    WorkerReporter.addSuccess amp w test =
      { world := ReportingResults.record { w with base := w.base.addSuccess } sid
          (maybeDeferred fun _ => amp.callRemote (Payload.success test.id)),
        exn := none } := by
  simp [WorkerReporter.addSuccess, WorkerReporter.call, h]

theorem addError_active (amp : AmpProtocol) (w : World) (sid : Nat)
    (h : w.reporting = some sid) (test : Test) (err : Failure ⊕ ExcInfo) :
    WorkerReporter.addError amp w test err =
      { world := ReportingResults.record { w with base := w.base.addError } sid
          (maybeDeferred fun _ => WorkerReporter.addErrorFallible amp test.id err),
        exn := none } := by
  simp [WorkerReporter.addError, WorkerReporter.call, h]

theorem addFailure_active (amp : AmpProtocol) (w : World) (sid : Nat)
    (h : w.reporting = some sid) (test : Test) (fl : Failure ⊕ ExcInfo)
    (m c : String)
    (hm : (WorkerReporter.getFailure fl).getErrorMessage = PyResult.ok m)
    (hc : qual (WorkerReporter.getFailure fl).typeObj = PyResult.ok c) :
    WorkerReporter.addFailure amp w test fl =
      { world := ReportingResults.record { w with base := w.base.addFailure } sid
          (maybeDeferred fun _ => amp.callRemote
            (Payload.failure test.id m c (WorkerReporter.getFrames (WorkerReporter.getFailure fl)))),
        exn := none } := by
  simp [WorkerReporter.addFailure, WorkerReporter.call, hm, hc, h]

theorem addSkip_active (amp : AmpProtocol) (w : World) (sid : Nat)
    (h : w.reporting = some sid) (test : Test) (reason : PyObj) (rs : String)
    (hr : reason.strRes = PyResult.ok rs) :
    WorkerReporter.addSkip amp w test reason =
      { world := ReportingResults.record { w with base := w.base.addSkip } sid
          (maybeDeferred fun _ => amp.callRemote (Payload.skip test.id rs)),
        exn := none } := by
  simp [WorkerReporter.addSkip, WorkerReporter.call, hr, h]

theorem addExpectedFailure_active (amp : AmpProtocol) (w : World) (sid : Nat)
    (h : w.reporting = some sid) (test : Test) (efErr : Failure)
    (todo : Option Todo) (em : String)
    (hem : efErr.getErrorMessage = PyResult.ok em) :
    WorkerReporter.addExpectedFailure amp w test efErr todo =
      { world := ReportingResults.record { w with base := w.base.addExpectedFailure } sid
          (maybeDeferred fun _ => amp.callRemote
            (Payload.expectedFailure test.id em (WorkerReporter.getTodoReason todo))),
        exn := none } := by
  simp [WorkerReporter.addExpectedFailure, WorkerReporter.call, hem, h]

theorem addUnexpectedSuccess_active (amp : AmpProtocol) (w : World) (sid : Nat)
    (h : w.reporting = some sid) (test : Test) (todo : Option Todo) :
    WorkerReporter.addUnexpectedSuccess amp w test todo =
      { world := ReportingResults.record { w with base := w.base.addUnexpectedSuccess } sid
          (maybeDeferred fun _ => amp.callRemote
            (Payload.unexpectedSuccess test.id (WorkerReporter.getTodoReason todo))),
        exn := none } := by
  simp [WorkerReporter.addUnexpectedSuccess, WorkerReporter.call, h]

theorem addSuccess_base (amp : AmpProtocol) (w : World) (test : Test) :
    (WorkerReporter.addSuccess amp w test).world.base = w.base.addSuccess := by
  cases h : w.reporting <;>
    simp [WorkerReporter.addSuccess, WorkerReporter.call, h, ReportingResults.record]

theorem addError_base (amp : AmpProtocol) (w : World) (test : Test)
    (err : Failure ⊕ ExcInfo) :
    (WorkerReporter.addError amp w test err).world.base = w.base.addError := by
  cases h : w.reporting <;>
    simp [WorkerReporter.addError, WorkerReporter.call, h, ReportingResults.record]

theorem addFailure_base (amp : AmpProtocol) (w : World) (test : Test)
    (fl : Failure ⊕ ExcInfo) :
    (WorkerReporter.addFailure amp w test fl).world.base = w.base.addFailure := by
  simp only [WorkerReporter.addFailure]
  split
  · rfl
  · split
    · rfl
    · cases h : w.reporting <;>
        simp [WorkerReporter.call, h, ReportingResults.record]

theorem addSkip_base (amp : AmpProtocol) (w : World) (test : Test) (reason : PyObj) :
    (WorkerReporter.addSkip amp w test reason).world.base = w.base.addSkip := by
  simp only [WorkerReporter.addSkip]
  split
  · rfl
  · cases h : w.reporting <;>
      simp [WorkerReporter.call, h, ReportingResults.record]

theorem addExpectedFailure_base (amp : AmpProtocol) (w : World) (test : Test)
    (efErr : Failure) (todo : Option Todo) :
    (WorkerReporter.addExpectedFailure amp w test efErr todo).world.base
      = w.base.addExpectedFailure := by
  simp only [WorkerReporter.addExpectedFailure]
  split
  · rfl
  · cases h : w.reporting <;>
      simp [WorkerReporter.call, h, ReportingResults.record]

theorem addUnexpectedSuccess_base (amp : AmpProtocol) (w : World) (test : Test)
    (todo : Option Todo) :
    (WorkerReporter.addUnexpectedSuccess amp w test todo).world.base
      = w.base.addUnexpectedSuccess := by
  cases h : w.reporting <;>
    simp [WorkerReporter.addUnexpectedSuccess, WorkerReporter.call, h,
      ReportingResults.record]

/-- C2: each of the six outcome methods, invoked while session sid is
active (with the inline input reads succeeding as the spec presumes of
non-malformed input), raises nothing, updates the base bookkeeping
exactly as the base reporter would, leaves the active-session reference
unchanged, and appends exactly one pending-relay handle to session sid;
moreover the base bookkeeping update happens independently of session
state, over every world whatsoever. -/
theorem outcome_methods_delegate_and_record_once
    (amp : AmpProtocol) (w : World) (sid : Nat) (h : w.reporting = some sid)
    (test : Test) (err fl : Failure ⊕ ExcInfo) (reason : PyObj) (efErr : Failure)
    (todo : Option Todo) (m c rs em : String)
    (hm : (WorkerReporter.getFailure fl).getErrorMessage = PyResult.ok m)
    (hc : qual (WorkerReporter.getFailure fl).typeObj = PyResult.ok c)
    (hr : reason.strRes = PyResult.ok rs)
    (hem : efErr.getErrorMessage = PyResult.ok em) :
    ((WorkerReporter.addSuccess amp w test).exn = none ∧
      (WorkerReporter.addSuccess amp w test).world.base = w.base.addSuccess ∧
      (WorkerReporter.addSuccess amp w test).world.reporting = w.reporting ∧
      (∃ d, (WorkerReporter.addSuccess amp w test).world.sessions
        = w.sessions.set sid (sessionAt w sid ++ [d])) ∧
      (∀ w' : World, (WorkerReporter.addSuccess amp w' test).world.base
        = w'.base.addSuccess)) ∧
    ((WorkerReporter.addError amp w test err).exn = none ∧
      (WorkerReporter.addError amp w test err).world.base = w.base.addError ∧
      (WorkerReporter.addError amp w test err).world.reporting = w.reporting ∧
      (∃ d, (WorkerReporter.addError amp w test err).world.sessions
        = w.sessions.set sid (sessionAt w sid ++ [d])) ∧
      (∀ w' : World, (WorkerReporter.addError amp w' test err).world.base
        = w'.base.addError)) ∧
    ((WorkerReporter.addFailure amp w test fl).exn = none ∧
      (WorkerReporter.addFailure amp w test fl).world.base = w.base.addFailure ∧
      (WorkerReporter.addFailure amp w test fl).world.reporting = w.reporting ∧
      (∃ d, (WorkerReporter.addFailure amp w test fl).world.sessions
        = w.sessions.set sid (sessionAt w sid ++ [d])) ∧
      (∀ w' : World, (WorkerReporter.addFailure amp w' test fl).world.base
        = w'.base.addFailure)) ∧
    ((WorkerReporter.addSkip amp w test reason).exn = none ∧
      (WorkerReporter.addSkip amp w test reason).world.base = w.base.addSkip ∧
      (WorkerReporter.addSkip amp w test reason).world.reporting = w.reporting ∧
      (∃ d, (WorkerReporter.addSkip amp w test reason).world.sessions
        = w.sessions.set sid (sessionAt w sid ++ [d])) ∧
      (∀ w' : World, (WorkerReporter.addSkip amp w' test reason).world.base
        = w'.base.addSkip)) ∧
    ((WorkerReporter.addExpectedFailure amp w test efErr todo).exn = none ∧
      (WorkerReporter.addExpectedFailure amp w test efErr todo).world.base
        = w.base.addExpectedFailure ∧
      (WorkerReporter.addExpectedFailure amp w test efErr todo).world.reporting
        = w.reporting ∧
      (∃ d, (WorkerReporter.addExpectedFailure amp w test efErr todo).world.sessions
        = w.sessions.set sid (sessionAt w sid ++ [d])) ∧
      (∀ w' : World, (WorkerReporter.addExpectedFailure amp w' test efErr todo).world.base
        = w'.base.addExpectedFailure)) ∧
    ((WorkerReporter.addUnexpectedSuccess amp w test todo).exn = none ∧
      (WorkerReporter.addUnexpectedSuccess amp w test todo).world.base
        = w.base.addUnexpectedSuccess ∧
      (WorkerReporter.addUnexpectedSuccess amp w test todo).world.reporting
        = w.reporting ∧
      (∃ d, (WorkerReporter.addUnexpectedSuccess amp w test todo).world.sessions
        = w.sessions.set sid (sessionAt w sid ++ [d])) ∧
      (∀ w' : World, (WorkerReporter.addUnexpectedSuccess amp w' test todo).world.base
        = w'.base.addUnexpectedSuccess)) := by
  have e1 := addSuccess_active amp w sid h test
  have e2 := addError_active amp w sid h test err
  have e3 := addFailure_active amp w sid h test fl m c hm hc
  have e4 := addSkip_active amp w sid h test reason rs hr
  have e5 := addExpectedFailure_active amp w sid h test efErr todo em hem
  have e6 := addUnexpectedSuccess_active amp w sid h test todo
  refine
    ⟨⟨by rw [e1], by rw [e1]; simp [ReportingResults.record],
      by rw [e1]; simp [ReportingResults.record],
      ⟨maybeDeferred fun _ => amp.callRemote (Payload.success test.id),
        by rw [e1]; simp [ReportingResults.record, sessionAt]⟩,
      fun w' => addSuccess_base amp w' test⟩,
     ⟨by rw [e2], by rw [e2]; simp [ReportingResults.record],
      by rw [e2]; simp [ReportingResults.record],
      ⟨maybeDeferred fun _ => WorkerReporter.addErrorFallible amp test.id err,
        by rw [e2]; simp [ReportingResults.record, sessionAt]⟩,
      fun w' => addError_base amp w' test err⟩,
     ⟨by rw [e3], by rw [e3]; simp [ReportingResults.record],
      by rw [e3]; simp [ReportingResults.record],
      ⟨maybeDeferred fun _ => amp.callRemote
          (Payload.failure test.id m c (WorkerReporter.getFrames (WorkerReporter.getFailure fl))),
        by rw [e3]; simp [ReportingResults.record, sessionAt]⟩,
      fun w' => addFailure_base amp w' test fl⟩,
     ⟨by rw [e4], by rw [e4]; simp [ReportingResults.record],
      by rw [e4]; simp [ReportingResults.record],
      ⟨maybeDeferred fun _ => amp.callRemote (Payload.skip test.id rs),
        by rw [e4]; simp [ReportingResults.record, sessionAt]⟩,
      fun w' => addSkip_base amp w' test reason⟩,
     ⟨by rw [e5], by rw [e5]; simp [ReportingResults.record],
      by rw [e5]; simp [ReportingResults.record],
      ⟨maybeDeferred fun _ => amp.callRemote
          (Payload.expectedFailure test.id em (WorkerReporter.getTodoReason todo)),
        by rw [e5]; simp [ReportingResults.record, sessionAt]⟩,
      fun w' => addExpectedFailure_base amp w' test efErr todo⟩,
     ⟨by rw [e6], by rw [e6]; simp [ReportingResults.record],
      by rw [e6]; simp [ReportingResults.record],
      ⟨maybeDeferred fun _ => amp.callRemote
          (Payload.unexpectedSuccess test.id (WorkerReporter.getTodoReason todo)),
        by rw [e6]; simp [ReportingResults.record, sessionAt]⟩,
      fun w' => addUnexpectedSuccess_base amp w' test todo⟩⟩

/-- Witness for C2 at concrete inputs: over the one-session world w0,
addSuccess raises nothing and increments the base success counter. -/
theorem outcome_methods_delegate_and_record_once_witness :
    (WorkerReporter.addSuccess reliableAmp w0 t0).exn = none ∧
    (WorkerReporter.addSuccess reliableAmp w0 t0).world.base = w0.base.addSuccess :=
  ⟨(outcome_methods_delegate_and_record_once reliableAmp w0 0 rfl t0
      (Sum.inl fl0) (Sum.inl fl0) ⟨PyResult.ok "slow", PyResult.ok "q"⟩ fl0 none
      "boom" "mod.ValueError" "slow" "boom"
      (by decide) (by decide) (by decide) (by decide)).1.1,
   (outcome_methods_delegate_and_record_once reliableAmp w0 0 rfl t0
      (Sum.inl fl0) (Sum.inl fl0) ⟨PyResult.ok "slow", PyResult.ok "q"⟩ fl0 none
      "boom" "mod.ValueError" "slow" "boom"
      (by decide) (by decide) (by decide) (by decide)).1.2.1⟩

/-- A failure whose error-message extraction itself raises. -/
def badF : Failure :=
  ⟨⟨PyResult.raised ⟨"boom-crash"⟩, PyResult.ok "mod.inst"⟩,
   ⟨PyResult.ok "typestr", PyResult.ok "mod.ValueError"⟩, []⟩

/-- Counterexample to C3 as stated: inside an active session (world w0),
addFailure on a failure whose message extraction raises propagates that
exception inline to the caller and records no handle at all, because
addFailure normalizes the failure before the relay closure is built. -/
theorem payload_exception_raised_inline_counterexample :
    (WorkerReporter.addFailure reliableAmp w0 t0 (Sum.inl badF)).exn
      = some ⟨"boom-crash"⟩ ∧
    (WorkerReporter.addFailure reliableAmp w0 t0 (Sum.inl badF)).world.sessions
      = w0.sessions := by decide

/-- C3 amended: inside an active session, a synchronous exception raised
while issuing the relay call (callRemote raising) is captured into the
recorded handle and never raised inline, for all six outcome methods; and
for addError even payload building (failure normalization) is deferred
into the handle, so a normalization exception is captured as well. For
addFailure, addSkip and addExpectedFailure, however, payload preparation
runs inline before the relay closure exists, so only the issuing step is
covered there (the counterexample shows an inline normalization raise). -/
theorem relay_issue_exceptions_are_captured
    (e : PyErr) (amp : AmpProtocol) (w : World) (sid : Nat)
    (h : w.reporting = some sid) (hsid : sid < w.sessions.length)
    (test : Test) (fl : Failure ⊕ ExcInfo) (reason : PyObj) (efErr : Failure)
    (todo : Option Todo) (m c rs em : String)
    (hm : (WorkerReporter.getFailure fl).getErrorMessage = PyResult.ok m)
    (hc : qual (WorkerReporter.getFailure fl).typeObj = PyResult.ok c)
    (hr : reason.strRes = PyResult.ok rs)
    (hem : efErr.getErrorMessage = PyResult.ok em)
    (emErr : PyErr) (badErr : Failure ⊕ ExcInfo)
    (hbad : (WorkerReporter.getFailure badErr).getErrorMessage = PyResult.raised emErr) :
    ((WorkerReporter.addSuccess (failingAmp e) w test).exn = none ∧
      sessionAt (WorkerReporter.addSuccess (failingAmp e) w test).world sid
        = sessionAt w sid ++ [Handle.failedSync e]) ∧
    ((WorkerReporter.addError (failingAmp e) w test fl).exn = none ∧
      sessionAt (WorkerReporter.addError (failingAmp e) w test fl).world sid
        = sessionAt w sid ++ [Handle.failedSync e]) ∧
    ((WorkerReporter.addFailure (failingAmp e) w test fl).exn = none ∧
      sessionAt (WorkerReporter.addFailure (failingAmp e) w test fl).world sid
        = sessionAt w sid ++ [Handle.failedSync e]) ∧
    ((WorkerReporter.addSkip (failingAmp e) w test reason).exn = none ∧
      sessionAt (WorkerReporter.addSkip (failingAmp e) w test reason).world sid
        = sessionAt w sid ++ [Handle.failedSync e]) ∧
    ((WorkerReporter.addExpectedFailure (failingAmp e) w test efErr todo).exn = none ∧
      sessionAt (WorkerReporter.addExpectedFailure (failingAmp e) w test efErr todo).world sid
        = sessionAt w sid ++ [Handle.failedSync e]) ∧
    ((WorkerReporter.addUnexpectedSuccess (failingAmp e) w test todo).exn = none ∧
      sessionAt (WorkerReporter.addUnexpectedSuccess (failingAmp e) w test todo).world sid
        = sessionAt w sid ++ [Handle.failedSync e]) ∧
    ((WorkerReporter.addError amp w test badErr).exn = none ∧
      sessionAt (WorkerReporter.addError amp w test badErr).world sid
        = sessionAt w sid ++ [Handle.failedSync emErr]) := by
  have hmd : ∀ p : Payload,
      maybeDeferred (fun _ => (failingAmp e).callRemote p) = Handle.failedSync e := by
    intro p; simp [maybeDeferred, AmpProtocol.callRemote, failingAmp]
  refine ⟨⟨?_, ?_⟩, ⟨?_, ?_⟩, ⟨?_, ?_⟩, ⟨?_, ?_⟩, ⟨?_, ?_⟩, ⟨?_, ?_⟩, ⟨?_, ?_⟩⟩
  · rw [addSuccess_active (failingAmp e) w sid h test]
  · rw [addSuccess_active (failingAmp e) w sid h test, hmd]
    simp [ReportingResults.record, sessionAt, List.getD, List.getElem?_set_self, hsid]
  · rw [addError_active (failingAmp e) w sid h test fl]
  · rw [addError_active (failingAmp e) w sid h test fl]
    simp [ReportingResults.record, sessionAt, List.getD, List.getElem?_set_self, hsid,
      maybeDeferred, WorkerReporter.addErrorFallible, hm, hc,
      AmpProtocol.callRemote, failingAmp]
  · rw [addFailure_active (failingAmp e) w sid h test fl m c hm hc]
  · rw [addFailure_active (failingAmp e) w sid h test fl m c hm hc, hmd]
    simp [ReportingResults.record, sessionAt, List.getD, List.getElem?_set_self, hsid]
  · rw [addSkip_active (failingAmp e) w sid h test reason rs hr]
  · rw [addSkip_active (failingAmp e) w sid h test reason rs hr, hmd]
    simp [ReportingResults.record, sessionAt, List.getD, List.getElem?_set_self, hsid]
  · rw [addExpectedFailure_active (failingAmp e) w sid h test efErr todo em hem]
  · rw [addExpectedFailure_active (failingAmp e) w sid h test efErr todo em hem, hmd]
    simp [ReportingResults.record, sessionAt, List.getD, List.getElem?_set_self, hsid]
  · rw [addUnexpectedSuccess_active (failingAmp e) w sid h test todo]
  · rw [addUnexpectedSuccess_active (failingAmp e) w sid h test todo, hmd]
    simp [ReportingResults.record, sessionAt, List.getD, List.getElem?_set_self, hsid]
  · rw [addError_active amp w sid h test badErr]
  · rw [addError_active amp w sid h test badErr]
    simp [ReportingResults.record, sessionAt, List.getD, List.getElem?_set_self, hsid,
      maybeDeferred, WorkerReporter.addErrorFallible, hbad]

/-- Witness for the amended C3 at concrete inputs: with a channel whose
callRemote raises, addSuccess inside the session of w0 raises nothing and
records the captured failure as the one handle. -/
theorem relay_issue_exceptions_are_captured_witness :
    (WorkerReporter.addSuccess (failingAmp ⟨"net down"⟩) w0 t0).exn = none ∧
    sessionAt (WorkerReporter.addSuccess (failingAmp ⟨"net down"⟩) w0 t0).world 0
      = sessionAt w0 0 ++ [Handle.failedSync ⟨"net down"⟩] :=
  (relay_issue_exceptions_are_captured ⟨"net down"⟩ reliableAmp w0 0 rfl
    (by decide) t0 (Sum.inl fl0) ⟨PyResult.ok "slow", PyResult.ok "q"⟩
    fl0 none "boom" "mod.ValueError" "slow" "boom"
    (by decide) (by decide) (by decide) (by decide)
    ⟨"boom-crash"⟩ (Sum.inl badF) (by decide)).1

/-- A concrete exception instance object: its string form is its message,
its qualified name is that of an instance, not of a class. -/
def excInst : PyObj := ⟨PyResult.ok "boom", PyResult.ok "mod.instqual"⟩

/-- A concrete exception type object: its string form is a class
rendering, its qualified name is the module-qualified class name. -/
def excCls : PyObj := ⟨PyResult.ok "class ValueError", PyResult.ok "mod.ValueError"⟩

/-- Counterexample to C4 as stated: for a triple in the declared
(instance, type, traceback) order, normalizing via the triple differs
from normalizing the pre-wrapped failure of the same exception, because
getFailure passes Failure(error[1], error[0], error[2]) and so feeds the
type object where the constructor expects the exception value. -/
theorem triple_normalization_counterexample :
    WorkerReporter.addErrorFallible reliableAmp "t"
        (Sum.inr (excInst, excCls, ([] : Traceback)))
      ≠ WorkerReporter.addErrorFallible reliableAmp "t"
          (Sum.inl (Failure.fromExc excInst excCls ([] : Traceback))) := by decide

/-- C4 amended: for a triple supplied in sys.exc_info order, that is
(type, instance, traceback) rather than the stated (instance, type,
traceback), normalization via the triple agrees exactly with
normalization of the pre-wrapped failure of the same exception: the triple
is wrapped as Failure(error[1], error[0], error[2]) and then processed
identically, yielding the same message, type name and frames, hence the
same issued payload. -/
theorem triple_normalization_matches_prewrapped (amp : AmpProtocol)
    (testName : String) (tObj vObj : PyObj) (tb : Traceback) :
    WorkerReporter.addErrorFallible amp testName (Sum.inr (tObj, vObj, tb))
      = WorkerReporter.addErrorFallible amp testName
          (Sum.inl (Failure.fromExc vObj tObj tb)) := rfl

/-- C8: inside an active session, the relayed todo field of
addExpectedFailure and addUnexpectedSuccess is the string
"Test expected to fail" when no Todo is supplied, and the supplied Todo's
reason text otherwise. -/
theorem todo_reason_default_rule (w : World) (sid : Nat)
    (h : w.reporting = some sid) (hsid : sid < w.sessions.length)
    (test : Test) (efErr : Failure) (em : String)
    (hem : efErr.getErrorMessage = PyResult.ok em) (todo : Todo) :
    sessionAt (WorkerReporter.addExpectedFailure reliableAmp w test efErr none).world sid
      = sessionAt w sid
        ++ [Handle.issued (Payload.expectedFailure test.id em "Test expected to fail")] ∧
    sessionAt
        (WorkerReporter.addExpectedFailure reliableAmp w test efErr (some todo)).world sid
      = sessionAt w sid
        ++ [Handle.issued (Payload.expectedFailure test.id em todo.reason)] ∧
    sessionAt (WorkerReporter.addUnexpectedSuccess reliableAmp w test none).world sid
      = sessionAt w sid
        ++ [Handle.issued (Payload.unexpectedSuccess test.id "Test expected to fail")] ∧
    sessionAt (WorkerReporter.addUnexpectedSuccess reliableAmp w test (some todo)).world sid
      = sessionAt w sid
        ++ [Handle.issued (Payload.unexpectedSuccess test.id todo.reason)] := by
  refine ⟨?_, ?_, ?_, ?_⟩
  · rw [addExpectedFailure_active reliableAmp w sid h test efErr none em hem]
    simp [ReportingResults.record, sessionAt, List.getD, List.getElem?_set_self, hsid,
      maybeDeferred, AmpProtocol.callRemote, reliableAmp,
      WorkerReporter.getTodoReason, WorkerReporter.DEFAULT_TODO]
  · rw [addExpectedFailure_active reliableAmp w sid h test efErr (some todo) em hem]
    simp [ReportingResults.record, sessionAt, List.getD, List.getElem?_set_self, hsid,
      maybeDeferred, AmpProtocol.callRemote, reliableAmp, WorkerReporter.getTodoReason]
  · rw [addUnexpectedSuccess_active reliableAmp w sid h test none]
    simp [ReportingResults.record, sessionAt, List.getD, List.getElem?_set_self, hsid,
      maybeDeferred, AmpProtocol.callRemote, reliableAmp,
      WorkerReporter.getTodoReason, WorkerReporter.DEFAULT_TODO]
  · rw [addUnexpectedSuccess_active reliableAmp w sid h test (some todo)]
    simp [ReportingResults.record, sessionAt, List.getD, List.getElem?_set_self, hsid,
      maybeDeferred, AmpProtocol.callRemote, reliableAmp, WorkerReporter.getTodoReason]

/-- Witness for C8 at concrete inputs over w0: with no Todo the relayed
field is the default string, with a Todo whose reason is "flaky on ci" it
is that text. -/
theorem todo_reason_default_rule_witness :
    sessionAt (WorkerReporter.addUnexpectedSuccess reliableAmp w0 t0 none).world 0
      = sessionAt w0 0
        ++ [Handle.issued (Payload.unexpectedSuccess t0.id "Test expected to fail")] ∧
    sessionAt
        (WorkerReporter.addUnexpectedSuccess reliableAmp w0 t0 (some ⟨"flaky on ci"⟩)).world 0
      = sessionAt w0 0
        ++ [Handle.issued (Payload.unexpectedSuccess t0.id "flaky on ci")] :=
  ⟨(todo_reason_default_rule w0 0 rfl (by decide) t0 fl0 "boom" (by decide)
      ⟨"flaky on ci"⟩).2.2.1,
   (todo_reason_default_rule w0 0 rfl (by decide) t0 fl0 "boom" (by decide)
      ⟨"flaky on ci"⟩).2.2.2⟩
